import Mathlib

/-!
Verification development for the MediScan-AI diagnostic-enhancement subsystem.

The frontend generators are embedded from the JavaScript source:
`frontend/src/utils/immediateInsights.js` (the file imported as
`../utils/immediateInsights` by `SkinAnalysisResults`), `frontend/src/utils/radiologyInsights.js`,
`frontend/src/components/UploadImage.jsx` and `frontend/src/components/Dashboard.jsx`.
Numbers are embedded as exact rationals (`ℚ`), JavaScript strings as Lean strings,
template-literal splices as string appends, and calls to the environment
(`Date.now()`, `Math.random()`) as explicit parameters.  The backend Image
Characteristic Scorer and Enhancement Orchestrator are not part of the staged
source tree; they are modelled from the specification, and each such definition
is marked `Modelled from the spec:` in its doc comment.
-/

/-- Char-list test: `sub` is a leading segment of the second list (used to
implement the JavaScript `String.prototype.includes`). -/
def startsWithChars : List Char → List Char → Bool
  | [], _ => true
  | _ :: _, [] => false
  | a :: as, b :: bs => a == b && startsWithChars as bs

/-- Char-list test: `sub` occurs contiguously somewhere in the list. -/
def containsChars (sub : List Char) : List Char → Bool
  | [] => startsWithChars sub []
  | b :: bs => startsWithChars sub (b :: bs) || containsChars sub bs

/-- JavaScript `s.includes(sub)`: substring containment. -/
def jsIncludes (s sub : String) : Bool := containsChars sub.data s.data

/-- JavaScript `s.toLowerCase()` on the ASCII labels this code handles. -/
def jsToLower (s : String) : String := String.mk (s.data.map Char.toLower)

/-- JavaScript `s.toUpperCase()` on the ASCII labels this code handles. -/
def jsToUpper (s : String) : String := String.mk (s.data.map Char.toUpper)

/-- JavaScript `Math.round` on the non-negative numbers this code rounds:
round half away from zero is floor of x + 1/2. -/
def jsRound (q : ℚ) : ℤ := Int.floor (q + 1/2)

/-- The splice `${Math.round(confidence * 100)}` used by every summary string. -/
def pct (confidence : ℚ) : String := toString (jsRound (confidence * 100))

/-- JavaScript `riskLevel?.toLowerCase() || d`: `d` when the risk level is
absent or lowercases to the empty string (falsy). -/
def riskLowerOr (riskLevel : Option String) (d : String) : String :=
  match riskLevel with
  | none => d
  | some r => if jsToLower r = "" then d else jsToLower r

/-- One entry of the condition-keyed insight dictionary of
`generateImmediateInsights` (summary, explanation and the two
interpretation strings). -/
structure Insight where
  summary : String
  explanation : String
  confidence_interpretation : String
  risk_interpretation : String
deriving Repr, DecidableEq

/-- Embedded from `immediateInsights.js` (`interpretConfidence`). -/
def interpretConfidence (confidence : ℚ) : String :=
  if confidence ≥ 0.8 then
    "High confidence (" ++ pct confidence ++ "%) indicates strong certainty in the AI assessment based on clear diagnostic features visible in the image."
  else if confidence ≥ 0.6 then
    "Good confidence (" ++ pct confidence ++ "%) shows reasonable certainty in the assessment, with professional confirmation recommended for definitive diagnosis."
  else if confidence ≥ 0.4 then
    "Moderate confidence (" ++ pct confidence ++ "%) suggests some uncertainty in the assessment, making professional medical evaluation particularly important."
  else
    "Low confidence (" ++ pct confidence ++ "%) indicates significant uncertainty in the assessment, requiring professional medical evaluation for accurate diagnosis."

/-- Embedded from `immediateInsights.js` (`interpretRisk`): a lookup in a
fixed dictionary keyed by the uppercased risk level, with a default for a
missing or unknown key. -/
def interpretRisk (riskLevel : Option String) : String :=
  let d := "Professional medical evaluation is recommended to determine the appropriate level of care and monitoring needed."
  match riskLevel with
  | none => d
  | some r =>
    let u := jsToUpper r
    if u = "HIGH" then
      "High risk indicates features that may suggest a serious condition requiring immediate medical attention and prompt treatment."
    else if u = "MEDIUM" then
      "Medium risk indicates features that warrant professional evaluation within a reasonable timeframe to ensure proper diagnosis and care."
    else if u = "LOW" then
      "Low risk indicates features that appear benign but should still be monitored regularly and evaluated if any changes occur."
    else if u = "CRITICAL" then
      "Critical risk indicates features requiring emergency medical evaluation due to potentially serious implications."
    else d

/-- The "basal cell carcinoma" entry of the insight dictionary. -/
def basalCellCarcinomaInsight (confidence : ℚ) (riskLevel : Option String) : Insight where
  summary := "Basal Cell Carcinoma detected with " ++ pct confidence ++ "% confidence. This is the most common form of skin cancer that grows slowly and rarely spreads to other parts of the body. While it's considered " ++ riskLowerOr riskLevel "moderate" ++ " risk, early treatment prevents complications and ensures the best cosmetic outcome. BCC typically appears as a pearly or waxy bump, a flat flesh-colored lesion, or a bleeding sore that heals and returns."
  explanation := "Basal Cell Carcinoma (BCC) develops in the basal cells of the skin's outer layer, typically in sun-exposed areas. It's the most frequently occurring form of all cancers, with over 4 million cases diagnosed in the U.S. each year. BCC rarely metastasizes (spreads) but can cause significant local damage if left untreated. The good news is that when detected early, BCC has a cure rate of over 95% with appropriate treatment."
  confidence_interpretation := interpretConfidence confidence
  risk_interpretation := interpretRisk riskLevel

/-- The "squamous cell carcinoma" entry of the insight dictionary. -/
def squamousCellCarcinomaInsight (confidence : ℚ) (riskLevel : Option String) : Insight where
  summary := "Squamous Cell Carcinoma identified with " ++ pct confidence ++ "% confidence. This is the second most common type of skin cancer that can be more aggressive than basal cell carcinoma. The " ++ riskLowerOr riskLevel "moderate" ++ " risk assessment indicates the need for prompt medical evaluation and treatment. SCC can spread to other parts of the body if left untreated, making early detection crucial."
  explanation := "Squamous Cell Carcinoma (SCC) arises from squamous cells in the skin's upper layers. It often appears as a firm, red nodule or a flat lesion with a scaly, crusted surface. SCC is more likely to spread than basal cell carcinoma, particularly in high-risk locations like the lips, ears, or genitals. With early detection and treatment, the cure rate is excellent, typically over 90%."
  confidence_interpretation := interpretConfidence confidence
  risk_interpretation := interpretRisk riskLevel

/-- The "melanoma" entry of the insight dictionary. -/
def melanomaInsight (confidence : ℚ) (riskLevel : Option String) : Insight where
  summary := "Melanoma detected with " ++ pct confidence ++ "% confidence. This is the most serious type of skin cancer that can spread rapidly if not treated early. The " ++ riskLowerOr riskLevel "high" ++ " risk classification emphasizes the critical importance of immediate professional medical evaluation. Early-stage melanoma has excellent survival rates, but delayed treatment can be life-threatening."
  explanation := "Melanoma develops in melanocytes, the cells that produce melanin (skin pigment). It can appear anywhere on the body and may develop from an existing mole or appear as a new, unusual growth. Melanoma is responsible for the majority of skin cancer deaths, but when caught early (Stage 0 or I), the 5-year survival rate exceeds 95%. The ABCDE rule (Asymmetry, Border, Color, Diameter, Evolution) helps identify suspicious lesions."
  confidence_interpretation := interpretConfidence confidence
  risk_interpretation := interpretRisk riskLevel

/-- The "actinic keratosis" entry of the insight dictionary. -/
def actinicKeratosisInsight (confidence : ℚ) (riskLevel : Option String) : Insight where
  summary := "Actinic Keratosis identified with " ++ pct confidence ++ "% confidence. This is a precancerous condition caused by sun damage that has the potential to develop into squamous cell carcinoma. The " ++ riskLowerOr riskLevel "low" ++ " risk indicates the importance of monitoring and potential treatment to prevent progression to cancer."
  explanation := "Actinic Keratosis (AK) appears as rough, scaly patches on sun-exposed areas of the skin, particularly the face, scalp, ears, neck, hands, and forearms. While AK itself is not cancer, it's considered precancerous because 5-10% of cases can progress to squamous cell carcinoma. Treatment options include topical medications, cryotherapy, and photodynamic therapy."
  confidence_interpretation := interpretConfidence confidence
  risk_interpretation := interpretRisk riskLevel

/-- The "seborrheic keratosis" entry of the insight dictionary. -/
def seborrheicKeratosisInsight (confidence : ℚ) (riskLevel : Option String) : Insight where
  summary := "Seborrheic Keratosis detected with " ++ pct confidence ++ "% confidence. This is a common, benign (non-cancerous) skin growth that typically appears as people age. The " ++ riskLowerOr riskLevel "low" ++ " risk assessment reflects its generally harmless nature, though professional evaluation confirms the diagnosis and rules out other conditions."
  explanation := "Seborrheic Keratosis appears as waxy, scaly, or slightly raised growths that can range in color from light tan to black. These growths are very common in people over 50 and are sometimes called 'wisdom spots.' They're completely benign but can sometimes be confused with melanoma or other skin cancers, making professional evaluation important for accurate diagnosis."
  confidence_interpretation := interpretConfidence confidence
  risk_interpretation := interpretRisk riskLevel

/-- The "benign keratosis" entry of the insight dictionary. -/
def benignKeratosisInsight (confidence : ℚ) (riskLevel : Option String) : Insight where
  summary := "Benign Keratosis detected with " ++ pct confidence ++ "% confidence. This represents a non-cancerous skin growth that poses minimal health risk. The " ++ riskLowerOr riskLevel "low" ++ " risk assessment indicates routine monitoring is typically sufficient, though any changes in appearance should be evaluated by a healthcare professional."
  explanation := "Benign keratoses are common, non-cancerous skin growths that include seborrheic keratoses and other harmless lesions. They typically develop with age and sun exposure but don't pose cancer risk. While generally harmless, they can sometimes be cosmetically bothersome or confused with other skin conditions, making professional evaluation valuable for peace of mind."
  confidence_interpretation := interpretConfidence confidence
  risk_interpretation := interpretRisk riskLevel

/-- The "melanocytic nevus" entry of the insight dictionary. -/
def melanocyticNevusInsight (confidence : ℚ) (riskLevel : Option String) : Insight where
  summary := "Melanocytic Nevus (mole) identified with " ++ pct confidence ++ "% confidence. This appears to be a common skin growth that is typically benign. The " ++ riskLowerOr riskLevel "low" ++ " risk assessment suggests routine monitoring, as most moles remain harmless throughout life, though changes should be evaluated professionally."
  explanation := "A melanocytic nevus is a common type of skin growth, often called a mole, composed of melanocytes (pigment-producing cells). Most people have 10-40 moles, and they're usually harmless. However, changes in size, shape, color, or texture should be evaluated by a healthcare professional, as these could indicate the need for closer monitoring or removal."
  confidence_interpretation := interpretConfidence confidence
  risk_interpretation := interpretRisk riskLevel

/-- The "vascular lesion" entry of the insight dictionary. -/
def vascularLesionInsight (confidence : ℚ) (riskLevel : Option String) : Insight where
  summary := "Vascular Lesion detected with " ++ pct confidence ++ "% confidence. This indicates a growth involving blood vessels in the skin, which are typically benign. The " ++ riskLowerOr riskLevel "low" ++ " risk assessment reflects that most vascular lesions are harmless, though professional evaluation can determine the specific type and any treatment needs."
  explanation := "Vascular lesions include various growths involving blood vessels, such as cherry angiomas, spider veins, or hemangiomas. Most are benign and cosmetic in nature. Some may be present from birth, while others develop with age. While generally harmless, rapid changes or bleeding should be evaluated by a healthcare professional."
  confidence_interpretation := interpretConfidence confidence
  risk_interpretation := interpretRisk riskLevel

/-- The "dermatofibroma" entry of the insight dictionary. -/
def dermatofibromaInsight (confidence : ℚ) (riskLevel : Option String) : Insight where
  summary := "Dermatofibroma detected with " ++ pct confidence ++ "% confidence. This is a common, benign skin growth composed of fibrous tissue. The " ++ riskLowerOr riskLevel "low" ++ " risk assessment indicates it's typically harmless, though professional evaluation can confirm the diagnosis and discuss removal options if desired."
  explanation := "Dermatofibromas are small, firm nodules that commonly appear on the legs and arms. They're composed of fibrous tissue and are completely benign. They often develop after minor skin injuries like insect bites or splinters. While harmless, they can be removed for cosmetic reasons or if they become irritated by clothing or shaving."
  confidence_interpretation := interpretConfidence confidence
  risk_interpretation := interpretRisk riskLevel

/-- The default insight returned when no dictionary key is a substring of the
lowercased prediction. -/
def defaultInsight (topPrediction : String) (confidence : ℚ) (riskLevel : Option String) : Insight where
  summary := topPrediction ++ " detected with " ++ pct confidence ++ "% confidence. This skin condition requires professional medical evaluation for accurate diagnosis and appropriate treatment planning. The " ++ riskLowerOr riskLevel "moderate" ++ " risk assessment guides the urgency of follow-up care."
  explanation := "Professional dermatological evaluation is recommended for " ++ topPrediction ++ ". A qualified healthcare provider can perform a thorough examination, potentially including dermoscopy or biopsy if needed, to confirm the diagnosis and recommend the most appropriate treatment approach."
  confidence_interpretation := interpretConfidence confidence
  risk_interpretation := interpretRisk riskLevel

/-- The keys of the insight dictionary, in the insertion order the
`for (const [condition, insight] of Object.entries(insights))` loop visits. -/
def conditionKeys : List String :=
  ["basal cell carcinoma", "squamous cell carcinoma", "melanoma",
   "actinic keratosis", "seborrheic keratosis", "benign keratosis",
   "melanocytic nevus", "vascular lesion", "dermatofibroma"]

/-- The body of `generateImmediateInsights` before the timestamp is attached:
the first dictionary entry whose key is a substring of the lowercased
prediction, else the default insight.  The dictionary loop is embedded as the
equivalent if-chain in the dictionary's insertion order. -/
def insightsCore (topPrediction : String) (confidence : ℚ) (riskLevel : Option String) : Insight :=
  let predictionLower := jsToLower topPrediction
  if jsIncludes predictionLower "basal cell carcinoma" then basalCellCarcinomaInsight confidence riskLevel
  else if jsIncludes predictionLower "squamous cell carcinoma" then squamousCellCarcinomaInsight confidence riskLevel
  else if jsIncludes predictionLower "melanoma" then melanomaInsight confidence riskLevel
  else if jsIncludes predictionLower "actinic keratosis" then actinicKeratosisInsight confidence riskLevel
  else if jsIncludes predictionLower "seborrheic keratosis" then seborrheicKeratosisInsight confidence riskLevel
  else if jsIncludes predictionLower "benign keratosis" then benignKeratosisInsight confidence riskLevel
  else if jsIncludes predictionLower "melanocytic nevus" then melanocyticNevusInsight confidence riskLevel
  else if jsIncludes predictionLower "vascular lesion" then vascularLesionInsight confidence riskLevel
  else if jsIncludes predictionLower "dermatofibroma" then dermatofibromaInsight confidence riskLevel
  else defaultInsight topPrediction confidence riskLevel

/-- The value `generateImmediateInsights` returns: the matched insight spread
together with `generated_at: new Date().toISOString()`; the clock reading is
an explicit parameter. -/
structure InsightResult extends Insight where
  generated_at : Nat
deriving Repr, DecidableEq

/-- Embedded from `immediateInsights.js` (`generateImmediateInsights`): the
fallback narrative generator, `FallbackLibrary.narrativeFor` of the spec. -/
def generateImmediateInsights (topPrediction : String) (confidence : ℚ)
    (riskLevel : Option String) (now : Nat) : InsightResult :=
  { insightsCore topPrediction confidence riskLevel with generated_at := now }

/-- A reference article as the generators return it (`relevance_score` is a
rational in place of the JavaScript float). -/
structure ResourceArticle where
  title : String
  url : String
  source : String
  snippet : String
  relevance_score : ℚ
deriving Repr, DecidableEq

/-- Embedded from `immediateInsights.js` (`generateImmediateResources`): the
`medical_articles` list — three base resources, plus one skin-cancer resource
pushed when the lowercased prediction contains "carcinoma" or "melanoma". -/
def generateImmediateResourcesArticles (topPrediction : String) : List ResourceArticle :=
  let predictionLower := jsToLower topPrediction
  let baseResources : List ResourceArticle :=
    [{ title := "Understanding " ++ topPrediction ++ ": Medical Overview"
     , url := "https://www.mayoclinic.org/diseases-conditions/skin-cancer"
     , source := "Mayo Clinic"
     , snippet := "Comprehensive medical information about " ++ topPrediction ++ " including symptoms, diagnosis, and treatment options from Mayo Clinic's expert medical team."
     , relevance_score := 0.95 },
     { title := "Dermatology Guidelines and Best Practices"
     , url := "https://www.aad.org/public/diseases/skin-cancer"
     , source := "American Academy of Dermatology"
     , snippet := "Professional guidelines for " ++ topPrediction ++ " diagnosis, treatment, and patient care from the leading dermatology organization."
     , relevance_score := 0.90 },
     { title := "When to See a Dermatologist"
     , url := "https://www.aad.org/public/everyday-care/when-to-see-dermatologist"
     , source := "American Academy of Dermatology"
     , snippet := "Guidelines for when to seek professional dermatological care and evaluation for skin concerns."
     , relevance_score := 0.85 }]
  if jsIncludes predictionLower "carcinoma" || jsIncludes predictionLower "melanoma" then
    baseResources ++
      [{ title := "Skin Cancer Prevention and Early Detection"
       , url := "https://www.skincancer.org/early-detection"
       , source := "Skin Cancer Foundation"
       , snippet := "Evidence-based information on preventing skin cancer and recognizing early warning signs for better outcomes."
       , relevance_score := 0.88 }]
  else baseResources

/-- The object `generateImmediateResources` returns (`fetched_at` carries the
clock reading). -/
structure ResourcesResult where
  reference_images : List String
  medical_articles : List ResourceArticle
  fetched_at : Nat
deriving Repr, DecidableEq

/-- Embedded from `immediateInsights.js` (`generateImmediateResources`). -/
def generateImmediateResources (topPrediction : String) (now : Nat) : ResourcesResult where
  reference_images := []
  medical_articles := generateImmediateResourcesArticles topPrediction
  fetched_at := now

/-- Embedded from `radiologyInsights.js` (`generateRadiologyResources`): the
`medical_articles` list — three base resources, plus a pneumonia resource when
the lowercased finding contains "pneumonia", plus a heart resource when it
contains "cardiomegaly" or "heart". -/
def generateRadiologyResourcesArticles (finding : String) : List ResourceArticle :=
  let findingLower := jsToLower finding
  let baseResources : List ResourceArticle :=
    [{ title := "Understanding " ++ finding ++ ": Radiology Overview"
     , url := "https://www.radiologyinfo.org/en/info/chestrad"
     , source := "RadiologyInfo.org"
     , snippet := "Comprehensive information about " ++ finding ++ " and chest X-ray interpretation from the Radiological Society of North America."
     , relevance_score := 0.95 },
     { title := "Chest X-ray Interpretation Guidelines"
     , url := "https://www.acr.org/Clinical-Resources"
     , source := "American College of Radiology"
     , snippet := "Professional guidelines for chest X-ray interpretation and " ++ finding ++ " evaluation from leading radiology experts."
     , relevance_score := 0.90 },
     { title := "When to Seek Medical Care for Chest Symptoms"
     , url := "https://www.lung.org/lung-health-diseases"
     , source := "American Lung Association"
     , snippet := "Guidelines for when to seek medical attention for chest symptoms and respiratory concerns."
     , relevance_score := 0.85 }]
  let withPneumonia :=
    if jsIncludes findingLower "pneumonia" then
      baseResources ++
        [{ title := "Pneumonia: Diagnosis and Treatment"
         , url := "https://www.lung.org/lung-health-diseases/lung-disease-lookup/pneumonia"
         , source := "American Lung Association"
         , snippet := "Comprehensive information about pneumonia diagnosis, treatment, and recovery from respiratory health experts."
         , relevance_score := 0.92 }]
    else baseResources
  if jsIncludes findingLower "cardiomegaly" || jsIncludes findingLower "heart" then
    withPneumonia ++
      [{ title := "Heart Enlargement: Causes and Treatment"
       , url := "https://www.heart.org/en/health-topics/cardiomyopathy"
       , source := "American Heart Association"
       , snippet := "Information about heart enlargement, its causes, and treatment options from cardiac health specialists."
       , relevance_score := 0.88 }]
  else withPneumonia

/-- The five fixed keyword categories (`CategorizedKeywords` of the spec). -/
structure Keywords where
  conditions : List String
  symptoms : List String
  treatments : List String
  procedures : List String
  general : List String
deriving Repr, DecidableEq

/-- JavaScript `[...new Set(arr)]` keeps the first occurrence of each element
in order; `seen` accumulates the elements already emitted. -/
def dedupAux (seen : List String) : List String → List String
  | [] => []
  | x :: xs => if x ∈ seen then dedupAux seen xs else x :: dedupAux (x :: seen) xs

/-- JavaScript `[...new Set(arr)]`. -/
def jsSetDedup (l : List String) : List String := dedupAux [] l

/-- One iteration of the `recommendations.forEach` loop of
`generateImmediateKeywords` (the JavaScript loop variable is `rec`). -/
def recommendationStep (k : Keywords) (r : String) : Keywords :=
  let recLower := jsToLower r
  let k1 := if jsIncludes recLower "dermatologist" then
      { k with procedures := k.procedures ++ ["dermatological consultation"] } else k
  let k2 := if jsIncludes recLower "biopsy" then
      { k1 with procedures := k1.procedures ++ ["tissue biopsy"] } else k1
  let k3 := if jsIncludes recLower "monitor" then
      { k2 with treatments := k2.treatments ++ ["clinical monitoring"] } else k2
  if jsIncludes recLower "sunscreen" then
    { k3 with general := k3.general ++ ["sun protection", "UV protection"] } else k3

/-- Embedded from `immediateInsights.js` (`generateImmediateKeywords`): base
keywords, condition-specific pushes keyed by substring tests on the lowercased
prediction, keyword extraction from the recommendation strings, and a final
per-category deduplication (the `extracted_at` timestamp is omitted: every
claim is about the category lists). -/
def generateImmediateKeywords (topPrediction : String) (recommendations : List String) : Keywords :=
  let predictionLower := jsToLower topPrediction
  let k0 : Keywords :=
    { conditions := [predictionLower, "skin lesion", "dermatology"]
    , symptoms := ["skin growth", "lesion", "skin change"]
    , treatments := ["medical evaluation", "dermatological consultation"]
    , procedures := ["clinical examination", "dermoscopy", "professional assessment"]
    , general := ["skin health", "medical diagnosis", "healthcare", "prevention"] }
  let k1 := if jsIncludes predictionLower "carcinoma" then
      { k0 with conditions := k0.conditions ++ ["skin cancer", "carcinoma"]
              , treatments := k0.treatments ++ ["surgical excision", "mohs surgery", "radiation therapy"]
              , procedures := k0.procedures ++ ["biopsy", "histopathology", "staging"] } else k0
  let k2 := if jsIncludes predictionLower "melanoma" then
      { k1 with conditions := k1.conditions ++ ["melanoma", "malignant melanoma"]
              , treatments := k1.treatments ++ ["immunotherapy", "targeted therapy", "surgical excision"]
              , procedures := k1.procedures ++ ["sentinel lymph node biopsy", "staging", "genetic testing"]
              , symptoms := k1.symptoms ++ ["ABCDE criteria", "asymmetry", "irregular borders"] } else k1
  let k3 := if jsIncludes predictionLower "keratosis" then
      { k2 with conditions := k2.conditions ++ ["keratosis", "precancerous lesion"]
              , treatments := k2.treatments ++ ["cryotherapy", "topical therapy", "monitoring"]
              , symptoms := k2.symptoms ++ ["scaly patch", "rough texture", "sun damage"] } else k2
  let k4 := if jsIncludes predictionLower "benign" || jsIncludes predictionLower "nevus" then
      { k3 with conditions := k3.conditions ++ ["benign lesion", "mole"]
              , treatments := k3.treatments ++ ["monitoring", "routine surveillance"]
              , general := k3.general ++ ["benign condition", "non-cancerous"] } else k3
  let k5 := recommendations.foldl recommendationStep k4
  { conditions := jsSetDedup k5.conditions
  , symptoms := jsSetDedup k5.symptoms
  , treatments := jsSetDedup k5.treatments
  , procedures := jsSetDedup k5.procedures
  , general := jsSetDedup k5.general }

/-- One entry of the six-element mock chest X-ray scenario array. -/
structure RadiologyScenario where
  findings : List String
  confidence_scores : List (String × ℚ)
  urgency_level : String
  clinical_summary : String
  recommendations : List String
deriving Repr, DecidableEq, Inhabited

/-- The six-element scenario array.  The same array literal is repeated
verbatim at its three use sites (`generateMockRadiologyResults` in
`UploadImage.jsx`, and `generateVariedRadiologyResults` and
`generateMockRadiologyResults` in `Dashboard.jsx`); it is defined once here. -/
def radiologyScenarios : List RadiologyScenario :=
  [{ findings := ["No acute findings"]
   , confidence_scores := [("No acute findings", 0.85), ("Mild cardiomegaly", 0.12), ("Pleural effusion", 0.03)]
   , urgency_level := "ROUTINE"
   , clinical_summary := "Chest X-ray demonstrates clear lung fields with no acute cardiopulmonary abnormalities."
   , recommendations := ["No immediate intervention required", "Routine follow-up as clinically indicated", "Continue current medical management"] },
   { findings := ["Pneumonia", "Left lower lobe consolidation"]
   , confidence_scores := [("Pneumonia", 0.78), ("Left lower lobe consolidation", 0.72), ("Pleural effusion", 0.15), ("No acute findings", 0.05)]
   , urgency_level := "URGENT"
   , clinical_summary := "Chest X-ray shows consolidation in the left lower lobe consistent with pneumonia."
   , recommendations := ["Initiate antibiotic therapy", "Clinical correlation with symptoms and laboratory results", "Follow-up chest X-ray in 7-10 days", "Consider sputum culture if available"] },
   { findings := ["Cardiomegaly", "Enlarged cardiac silhouette"]
   , confidence_scores := [("Cardiomegaly", 0.82), ("Enlarged cardiac silhouette", 0.79), ("Pulmonary vascular congestion", 0.25), ("No acute findings", 0.10)]
   , urgency_level := "FOLLOW-UP"
   , clinical_summary := "Chest X-ray demonstrates cardiomegaly with cardiothoracic ratio greater than 50%."
   , recommendations := ["Echocardiogram recommended for cardiac assessment", "Cardiology consultation advised", "Monitor for signs of heart failure", "Review current cardiac medications"] },
   { findings := ["Pneumothorax", "Right-sided pneumothorax"]
   , confidence_scores := [("Pneumothorax", 0.88), ("Right-sided pneumothorax", 0.85), ("Lung collapse", 0.45), ("No acute findings", 0.02)]
   , urgency_level := "EMERGENCY"
   , clinical_summary := "Chest X-ray shows right-sided pneumothorax with partial lung collapse."
   , recommendations := ["Immediate chest tube insertion indicated", "Emergency department evaluation required", "Monitor respiratory status closely", "Prepare for possible thoracostomy"] },
   { findings := ["Pleural effusion", "Bilateral pleural effusions"]
   , confidence_scores := [("Pleural effusion", 0.76), ("Bilateral pleural effusions", 0.68), ("Cardiomegaly", 0.35), ("Pulmonary edema", 0.22)]
   , urgency_level := "URGENT"
   , clinical_summary := "Chest X-ray demonstrates bilateral pleural effusions with blunting of costophrenic angles."
   , recommendations := ["Thoracentesis may be indicated", "Evaluate underlying cause of effusions", "Consider diuretic therapy if cardiac origin", "Monitor respiratory function"] },
   { findings := ["Pulmonary nodule", "Right upper lobe nodule"]
   , confidence_scores := [("Pulmonary nodule", 0.71), ("Right upper lobe nodule", 0.68), ("Lung mass", 0.25), ("No acute findings", 0.15)]
   , urgency_level := "FOLLOW-UP"
   , clinical_summary := "Chest X-ray shows a pulmonary nodule in the right upper lobe requiring further evaluation."
   , recommendations := ["CT chest with contrast recommended", "Compare with prior imaging if available", "Pulmonology consultation advised", "Consider PET scan based on nodule characteristics"] }]

/-- JavaScript `q.toFixed(2)` for the non-negative values this code formats. -/
def jsToFixed2 (q : ℚ) : String :=
  let n := jsRound (q * 100)
  toString (n / 100) ++ "." ++ (if n % 100 < 10 then "0" ++ toString (n % 100) else toString (n % 100))

/-- The selected scenario spread together with the `analysis_id` and
`processing_time` metadata the generators attach. -/
structure RadiologyResult extends RadiologyScenario where
  analysis_id : String
  processing_time : String
deriving Repr, DecidableEq

namespace UploadImage

/-- Scenario index of `generateMockRadiologyResults` in `UploadImage.jsx`:
`imageHash = (imageFile.name.length + imageFile.size + Date.now()) % 1000`,
then `imageHash % scenarios.length`.  The `Date.now()` reading is the `now`
parameter. -/
def scenarioIndex (name : String) (size now : Nat) : Nat :=
  ((name.length + size + now) % 1000) % radiologyScenarios.length

/-- Embedded from `UploadImage.jsx` (`generateMockRadiologyResults`): selects
a scenario by `scenarioIndex` and attaches `analysis_id` and
`processing_time` (`Math.random()` is the `rand` parameter). -/
def generateMockRadiologyResults (name : String) (size now : Nat) (rand : ℚ) : RadiologyResult :=
  let scenarioIdx := scenarioIndex name size now
  let selectedScenario := radiologyScenarios.getD scenarioIdx default
  { selectedScenario with
      analysis_id := "rad_" ++ toString now ++ "_" ++ toString scenarioIdx
    , processing_time := jsToFixed2 (rand * 2 + 0.5) ++ "s" }

end UploadImage

namespace Dashboard

/-- Scenario index of `generateVariedRadiologyResults` in `Dashboard.jsx`:
`Math.floor(Date.now() / 10000) % scenarios.length` — a function of the clock
alone. -/
def variedScenarioIndex (now : Nat) : Nat :=
  (now / 10000) % radiologyScenarios.length

/-- Embedded from `Dashboard.jsx` (`generateVariedRadiologyResults`). -/
def generateVariedRadiologyResults (now : Nat) (rand : ℚ) : RadiologyResult :=
  let scenarioIdx := variedScenarioIndex now
  let selectedScenario := radiologyScenarios.getD scenarioIdx default
  { selectedScenario with
      analysis_id := "rad_" ++ toString now ++ "_" ++ toString scenarioIdx
    , processing_time := jsToFixed2 (rand * 2 + 0.5) ++ "s" }

/-- Scenario index of `generateMockRadiologyResults` in `Dashboard.jsx`:
`imageHash = imageFile.name.length + imageFile.size`, then
`imageHash % scenarios.length` — a function of the file fingerprint alone. -/
def scenarioIndex (name : String) (size : Nat) : Nat :=
  (name.length + size) % radiologyScenarios.length

/-- Embedded from `Dashboard.jsx` (`generateMockRadiologyResults`). -/
def generateMockRadiologyResults (name : String) (size now : Nat) (rand : ℚ) : RadiologyResult :=
  let scenarioIdx := scenarioIndex name size
  let selectedScenario := radiologyScenarios.getD scenarioIdx default
  { selectedScenario with
      analysis_id := "rad_" ++ toString now ++ "_" ++ toString scenarioIdx
    , processing_time := jsToFixed2 (rand * 2 + 0.5) ++ "s" }

end Dashboard

/-- The closed set of taxonomic buckets the spec asks for (carcinoma-family,
melanocytic-family, keratosis-family, vascular, fibrous, and the explicit
unknown-family default). -/
inductive ConditionFamily where
  | carcinomaFamily
  | melanocyticFamily
  | keratosisFamily
  | vascularFamily
  | fibrousFamily
  | unknownFamily
deriving Repr, DecidableEq

/-- Written from the SPEC's words, for comparison with the code: an explicit
total mapping from the known condition labels to the closed bucket set, with
the explicit unknown-family default for every other label. -/
def conditionFamilySpec (label : String) : ConditionFamily :=
  let l := jsToLower label
  if l = "basal cell carcinoma" ∨ l = "squamous cell carcinoma" then .carcinomaFamily
  else if l = "melanoma" ∨ l = "melanocytic nevus" then .melanocyticFamily
  else if l = "actinic keratosis" ∨ l = "seborrheic keratosis" ∨ l = "benign keratosis" then .keratosisFamily
  else if l = "vascular lesion" then .vascularFamily
  else if l = "dermatofibroma" then .fibrousFamily
  else .unknownFamily

/-- The code's branch condition for the skin-cancer-family fallback content:
`predictionLower.includes('carcinoma') || predictionLower.includes('melanoma')`
(`generateImmediateResources`, and the carcinoma/melanoma pushes of
`generateImmediateKeywords`). -/
def codeSelectsCancerExtra (label : String) : Bool :=
  jsIncludes (jsToLower label) "carcinoma" || jsIncludes (jsToLower label) "melanoma"

/-- The selection the spec's closed taxonomy makes for the same content:
cancer-family extras exactly for the carcinoma and melanocytic families. -/
def specSelectsCancerExtra (label : String) : Bool :=
  match conditionFamilySpec label with
  | .carcinomaFamily => true
  | .melanocyticFamily => true
  | _ => false

/-- Clamp into the unit interval: the boundary behaviour the spec requires of
every scorer output. -/
def clamp01 (x : ℚ) : ℚ := max 0 (min 1 x)

/-- An RGB pixel with rational channel values. -/
structure RGB where
  r : ℚ
  g : ℚ
  b : ℚ
deriving Repr, DecidableEq

/-- An image as a grid of pixels (rows of RGB values). -/
def Image : Type := List (List RGB)

/-- Grey intensity of a pixel. -/
def intensity (p : RGB) : ℚ := (p.r + p.g + p.b) / 3

/-- Mean of a list of rationals; 0 for the degenerate empty list (the spec's
clamp-instead-of-raise rule for degenerate regions). -/
def listMean (l : List ℚ) : ℚ := if l.length = 0 then 0 else l.sum / l.length

/-- Population variance of a list of rationals (0 for the empty list). -/
def listVariance (l : List ℚ) : ℚ :=
  let m := listMean l
  listMean (l.map (fun x => (x - m) ^ 2))

/-- Mean absolute difference between a list of intensities and its mirror
image (one half mirrored onto the other). -/
def mirrorDiff (l : List ℚ) : ℚ :=
  listMean ((l.zip l.reverse).map (fun q => |q.1 - q.2|))

/-- Modelled from the spec: the asymmetry dimension of the Image
Characteristic Scorer (not in the staged source) — a left/right and a
top/bottom pixel-intensity mirror-difference, the two axis scores averaged
and normalized to the unit interval. -/
def asymmetryScore (img : Image) : ℚ :=
  let rows := img.map (fun row => row.map intensity)
  let horizontalAxis := listMean (rows.map mirrorDiff)
  let verticalAxis := mirrorDiff (rows.map listMean)
  clamp01 ((horizontalAxis + verticalAxis) / 2)

/-- Adjacent-difference gradient magnitudes along a row of intensities. -/
def gradMagnitudes (row : List ℚ) : List ℚ :=
  (row.zip row.tail).map (fun q => |q.2 - q.1|)

/-- Modelled from the spec: the fixed reference range the border-irregularity
variance is normalized against. -/
def borderReferenceRange : ℚ := 0.25

/-- Modelled from the spec: the border-irregularity dimension of the Image
Characteristic Scorer (not in the staged source) — variance of the gradient
magnitudes over the region, normalized against a fixed reference range and
clamped to the unit interval. -/
def borderIrregularityScore (img : Image) : ℚ :=
  let rows := img.map (fun row => row.map intensity)
  let grads := (rows.map gradMagnitudes).flatten
  clamp01 (listVariance grads / borderReferenceRange)

/-- Modelled from the spec: the fixed reference range the per-channel colour
spread is normalized against. -/
def colorReferenceRange : ℚ := 0.25

/-- Modelled from the spec: the colour-variation dimension of the Image
Characteristic Scorer (not in the staged source) — per-channel statistical
spread (variance) across the region, the channels combined by averaging and
the result normalized to the unit interval. -/
def colorVariationScore (img : Image) : ℚ :=
  let ps := img.flatten
  let spread := (listVariance (ps.map (fun p => p.r)) + listVariance (ps.map (fun p => p.g))
      + listVariance (ps.map (fun p => p.b))) / 3
  clamp01 (spread / colorReferenceRange)

/-- Modelled from the spec: the condition-family multiplier of the
evolution-risk composite, malignant-leaning families weighted upward. -/
def familyMultiplier (label : String) : ℚ :=
  match conditionFamilySpec label with
  | .carcinomaFamily => 1.2
  | .melanocyticFamily => 1.3
  | .keratosisFamily => 1.0
  | _ => 0.9

/-- Modelled from the spec: the evolution-risk dimension of the Image
Characteristic Scorer (not in the staged source) — a weighted combination of
the other three scores, scaled by the condition-family multiplier and clamped
to the unit interval (a heuristic composite, not a measured quantity). -/
def evolutionRiskScore (img : Image) (label : String) : ℚ :=
  clamp01 ((0.5 * asymmetryScore img + 0.3 * borderIrregularityScore img
      + 0.2 * colorVariationScore img) * familyMultiplier label)

/-- Scorer configuration: the confidence threshold is an explicit parameter,
not a hardcoded constant (the source used 0.30 ad hoc). -/
structure ScorerConfig where
  confidenceThreshold : ℚ
deriving Repr, DecidableEq

/-- The four characteristic dimensions, each either a numeric score (`some`)
or the explicit `NotApplicable` marker (`none`), plus the rationale string
carried when the scores are not applicable (the `characteristics` object with
nullable `asymmetry_score`, `border_irregularity`, `color_variation` and
`evolution_risk` fields that `OverviewTab` consumes). -/
structure CharacteristicScores where
  asymmetry : Option ℚ
  borderIrregularity : Option ℚ
  colorVariation : Option ℚ
  evolutionRisk : Option ℚ
  rationale : Option String
deriving Repr, DecidableEq

/-- The rationale string attached when confidence is below the threshold. -/
def lowConfidenceRationale : String :=
  "Classification confidence is below the configured threshold, so a structural estimate of the lesion characteristics would not be meaningful."

/-- Modelled from the spec: `score(pixels, label, confidence)` of the Image
Characteristic Scorer (not in the staged source).  First check: if
`confidence < CONFIDENCE_THRESHOLD`, return `NotApplicable` for all four
dimensions with a rationale string; otherwise compute the four normalized
scores from the pixel data. -/
def score (cfg : ScorerConfig) (pixels : Image) (label : String) (confidence : ℚ) : CharacteristicScores :=
  if confidence < cfg.confidenceThreshold then
    { asymmetry := none, borderIrregularity := none, colorVariation := none
    , evolutionRisk := none, rationale := some lowConfidenceRationale }
  else
    { asymmetry := some (asymmetryScore pixels)
    , borderIrregularity := some (borderIrregularityScore pixels)
    , colorVariation := some (colorVariationScore pixels)
    , evolutionRisk := some (evolutionRiskScore pixels label)
    , rationale := none }

/-- The adapter-side error taxonomy of the spec (`NetworkTimeout`,
`NetworkError`, `MalformedResponse`, `EmptyResult`). -/
inductive AdapterError where
  | networkTimeout
  | networkError
  | malformedResponse
  | emptyResult
deriving Repr, DecidableEq

/-- The immutable input the out-of-scope classifier produces.  The label,
confidence and risk-level triple is the spec's `AnalysisResult`; `image` is
the `imageRef` payload handed to the scorer, and `recommendations` carries
the recommendation strings the keyword fallback consumes
(`analysisResult.recommendations || []` in `SkinAnalysisResults`). -/
structure AnalysisResult where
  label : String
  confidence : ℚ
  riskLevel : String
  image : Image
  recommendations : List String

/-- What the narrative adapter yields on success: summary and explanation. -/
structure NarrativeText where
  summary : String
  explanation : String
deriving Repr, DecidableEq

/-- The resolved state of the three concurrent adapter calls as the
orchestrator joins them: a call that returned before its timeout is `Except.ok`
with its payload, and a timeout, network error or malformed response is
`Except.error` — the timeout configuration acts on the model only through
which calls end in `AdapterError.networkTimeout`. -/
structure AdapterOutcomes where
  narrative : Except AdapterError NarrativeText
  resources : Except AdapterError (List ResourceArticle)
  keywords : Except AdapterError Keywords

/-- The spec's `EnhancementBundle`: always fully populated, one field per
enhancement component. -/
structure EnhancementBundle where
  narrativeSummary : String
  narrativeExplanation : String
  confidenceNote : String
  riskNote : String
  resources : List ResourceArticle
  keywords : Keywords
  characteristics : CharacteristicScores
  generatedAt : Nat

/-- Modelled from the spec: the Enhancement Orchestrator `enhance` (not in
the staged source).  Each adapter outcome that is an error, or that resolved
with an empty payload, is replaced locally by the corresponding deterministic
fallback from the embedded immediate-insights generators, keyed by the label,
confidence and risk level; the scorer runs unconditionally; the assembled
bundle is returned, never an exception. -/
def enhance (cfg : ScorerConfig) (result : AnalysisResult) (outcomes : AdapterOutcomes)
    (now : Nat) : EnhancementBundle :=
  let fallback := insightsCore result.label result.confidence (some result.riskLevel)
  let narrative : NarrativeText :=
    match outcomes.narrative with
    | .ok n => if n.summary = "" ∨ n.explanation = "" then
        { summary := fallback.summary, explanation := fallback.explanation } else n
    | .error _ => { summary := fallback.summary, explanation := fallback.explanation }
  let resources : List ResourceArticle :=
    match outcomes.resources with
    | .ok l => if l = [] then generateImmediateResourcesArticles result.label else l
    | .error _ => generateImmediateResourcesArticles result.label
  let keywords : Keywords :=
    match outcomes.keywords with
    | .ok k => if k.conditions = [] then generateImmediateKeywords result.label result.recommendations else k
    | .error _ => generateImmediateKeywords result.label result.recommendations
  { narrativeSummary := narrative.summary
  , narrativeExplanation := narrative.explanation
  , confidenceNote := fallback.confidence_interpretation
  , riskNote := fallback.risk_interpretation
  , resources := resources
  , keywords := keywords
  , characteristics := score cfg result.image result.label result.confidence
  , generatedAt := now }

/-- Every field of the bundle carries content: non-empty narrative texts and
notes, a non-empty resource list, a keyword map whose `conditions` category is
non-empty, and a characteristics object that is populated either with all
four numeric scores or with the not-applicable marker and its rationale. -/
def BundlePopulated (b : EnhancementBundle) : Prop :=
  b.narrativeSummary ≠ "" ∧ b.narrativeExplanation ≠ "" ∧
  b.confidenceNote ≠ "" ∧ b.riskNote ≠ "" ∧
  b.resources ≠ [] ∧ b.keywords.conditions ≠ [] ∧
  ((b.characteristics.asymmetry.isSome ∧ b.characteristics.borderIrregularity.isSome ∧
      b.characteristics.colorVariation.isSome ∧ b.characteristics.evolutionRisk.isSome) ∨
    (b.characteristics.rationale.isSome ∧ b.characteristics.rationale ≠ some ""))

/-- Well-formedness of one mock scenario: the fields claim C10 names. -/
def WellFormedScenario (s : RadiologyScenario) : Prop :=
  s.findings ≠ [] ∧ s.recommendations ≠ [] ∧ s.clinical_summary ≠ "" ∧
  s.urgency_level ∈ (["ROUTINE", "URGENT", "EMERGENCY", "FOLLOW-UP"] : List String)

instance (s : RadiologyScenario) : Decidable (WellFormedScenario s) := by
  unfold WellFormedScenario; infer_instance

/-- The relevance scores of a resource list, in list order. -/
def relevanceScores (l : List ResourceArticle) : List ℚ := l.map (fun a => a.relevance_score)

/-- The list is sorted in descending order of `relevance_score` (every
adjacent pair is non-increasing). -/
def SortedByRelevanceDesc (l : List ResourceArticle) : Prop :=
  (relevanceScores l).Chain' (fun a b => b ≤ a)

theorem append_ne_empty (a b : String) (h : b ≠ "") : a ++ b ≠ "" := by
  intro hc
  apply h
  have hd : (a ++ b).data = a.data ++ b.data := String.data_append a b
  rw [hc] at hd
  have hb : b.data = [] := (List.append_eq_nil.mp hd.symm).2
  cases b
  simp_all [String.ext_iff]

theorem interpretConfidence_ne_empty (confidence : ℚ) : interpretConfidence confidence ≠ "" := by
  unfold interpretConfidence
  split_ifs <;> exact append_ne_empty _ _ (by decide)

theorem interpretRisk_ne_empty (riskLevel : Option String) : interpretRisk riskLevel ≠ "" := by
  unfold interpretRisk
  cases riskLevel with
  | none => decide
  | some r => dsimp only; split_ifs <;> decide

theorem insightsCore_fields_ne (label : String) (confidence : ℚ) (riskLevel : Option String) :
    (insightsCore label confidence riskLevel).summary ≠ "" ∧
    (insightsCore label confidence riskLevel).explanation ≠ "" ∧
    (insightsCore label confidence riskLevel).confidence_interpretation ≠ "" ∧
    (insightsCore label confidence riskLevel).risk_interpretation ≠ "" := by
  unfold insightsCore
  dsimp only
  split_ifs <;>
    simp only [basalCellCarcinomaInsight, squamousCellCarcinomaInsight, melanomaInsight,
      actinicKeratosisInsight, seborrheicKeratosisInsight, benignKeratosisInsight,
      melanocyticNevusInsight, vascularLesionInsight, dermatofibromaInsight, defaultInsight] <;>
    refine ⟨?_, ?_, interpretConfidence_ne_empty _, interpretRisk_ne_empty _⟩ <;>
    first
      | exact append_ne_empty _ _ (by decide)
      | decide

theorem mem_dedupAux {x : String} : ∀ {l seen : List String}, x ∈ l → x ∉ seen → x ∈ dedupAux seen l := by
  intro l
  induction l with
  | nil => intro seen h; exact absurd h (List.not_mem_nil x)
  | cons y ys ih =>
    intro seen hmem hseen
    unfold dedupAux
    by_cases hy : y ∈ seen
    · rw [if_pos hy]
      rcases List.mem_cons.mp hmem with rfl | h
      · exact absurd hy hseen
      · exact ih h hseen
    · rw [if_neg hy]
      rcases List.mem_cons.mp hmem with rfl | h
      · exact List.mem_cons_self _ _
      · by_cases hxy : x = y
        · subst hxy; exact List.mem_cons_self _ _
        · refine List.mem_cons_of_mem _ (ih h ?_)
          simp [List.mem_cons, hxy, hseen]

theorem mem_jsSetDedup {x : String} {l : List String} (h : x ∈ l) : x ∈ jsSetDedup l :=
  mem_dedupAux h (List.not_mem_nil x)

theorem jsSetDedup_ne_nil {l : List String} (h : l ≠ []) : jsSetDedup l ≠ [] := by
  cases l with
  | nil => exact absurd rfl h
  | cons y ys =>
    unfold jsSetDedup dedupAux
    rw [if_neg (List.not_mem_nil y)]
    simp

theorem recommendationStep_conditions (k : Keywords) (r : String) :
    (recommendationStep k r).conditions = k.conditions := by
  unfold recommendationStep
  dsimp only
  split_ifs <;> rfl

theorem foldl_recommendationStep_conditions (recs : List String) (k : Keywords) :
    (recs.foldl recommendationStep k).conditions = k.conditions := by
  induction recs generalizing k with
  | nil => rfl
  | cons r rs ih => rw [List.foldl_cons, ih, recommendationStep_conditions]

theorem generateImmediateResourcesArticles_ne_nil (topPrediction : String) :
    generateImmediateResourcesArticles topPrediction ≠ [] := by
  unfold generateImmediateResourcesArticles
  dsimp only
  split_ifs <;> simp

theorem clamp01_nonneg (x : ℚ) : 0 ≤ clamp01 x := le_max_left 0 (min 1 x)

theorem clamp01_le_one (x : ℚ) : clamp01 x ≤ 1 :=
  max_le (by norm_num) (min_le_left 1 x)

theorem asymmetryScore_bounds (img : Image) :
    0 ≤ asymmetryScore img ∧ asymmetryScore img ≤ 1 := by
  unfold asymmetryScore
  exact ⟨clamp01_nonneg _, clamp01_le_one _⟩

theorem borderIrregularityScore_bounds (img : Image) :
    0 ≤ borderIrregularityScore img ∧ borderIrregularityScore img ≤ 1 := by
  unfold borderIrregularityScore
  exact ⟨clamp01_nonneg _, clamp01_le_one _⟩

theorem colorVariationScore_bounds (img : Image) :
    0 ≤ colorVariationScore img ∧ colorVariationScore img ≤ 1 := by
  unfold colorVariationScore
  exact ⟨clamp01_nonneg _, clamp01_le_one _⟩

theorem evolutionRiskScore_bounds (img : Image) (label : String) :
    0 ≤ evolutionRiskScore img label ∧ evolutionRiskScore img label ≤ 1 := by
  unfold evolutionRiskScore
  exact ⟨clamp01_nonneg _, clamp01_le_one _⟩

theorem radiologyScenarios_wf :
    ∀ i : Fin 6, WellFormedScenario (radiologyScenarios.getD i.val default) := by decide

/-- C5: fallback narrative determinism — two calls of the fallback narrative
generator with identical label, confidence and risk-level arguments return
byte-identical text in every text field, whatever the clock reads at the two
calls (the timestamp is the only field that depends on the call time). -/
theorem narrativeFor_deterministic (label : String) (confidence : ℚ)
    (riskLevel : Option String) (t1 t2 : Nat) :
    (generateImmediateInsights label confidence riskLevel t1).summary =
      (generateImmediateInsights label confidence riskLevel t2).summary ∧
    (generateImmediateInsights label confidence riskLevel t1).explanation =
      (generateImmediateInsights label confidence riskLevel t2).explanation ∧
    (generateImmediateInsights label confidence riskLevel t1).confidence_interpretation =
      (generateImmediateInsights label confidence riskLevel t2).confidence_interpretation ∧
    (generateImmediateInsights label confidence riskLevel t1).risk_interpretation =
      (generateImmediateInsights label confidence riskLevel t2).risk_interpretation :=
  ⟨rfl, rfl, rfl, rfl⟩

/-- C6 counterexample: the conditions category does not contain the input
label itself — for the label "Melanoma" the generator seeds the category with
the lowercased "melanoma", so the claim as stated fails. -/
theorem keywords_conditions_label_case_cex :
    "Melanoma" ∉ (generateImmediateKeywords "Melanoma" []).conditions := by decide

/-- C6 (amended): for every input label and recommendation list, the
conditions category of the returned keywords contains the lowercased input
label. -/
theorem keywords_conditions_contain_lowercased_label (label : String)
    (recommendations : List String) :
    jsToLower label ∈ (generateImmediateKeywords label recommendations).conditions := by
  unfold generateImmediateKeywords
  dsimp only
  rw [foldl_recommendationStep_conditions]
  apply mem_jsSetDedup
  split_ifs <;> simp

/-- C8 counterexample: fallback content is not selected through a closed
taxonomy keyed by condition family — "melanoma" and "melanocytic nevus" fall
in the same melanocytic family, yet the code's substring test selects the
skin-cancer extra content for one and not the other (so no function of the
family reproduces the code), and the unknown label variant "pseudocarcinoma"
receives carcinoma-family content instead of the unknown-family default. -/
theorem conditionFamily_substring_divergence_cex :
    (conditionFamilySpec "melanoma" = conditionFamilySpec "melanocytic nevus" ∧
      codeSelectsCancerExtra "melanoma" ≠ codeSelectsCancerExtra "melanocytic nevus") ∧
    (conditionFamilySpec "pseudocarcinoma" = ConditionFamily.unknownFamily ∧
      codeSelectsCancerExtra "pseudocarcinoma" = true) := by decide

/-- C8 (amended): fallback content is selected by free-text substring
matching on the lowercased label, not via a closed taxonomy — the skin-cancer
extra resource is appended exactly when the substring predicate holds (the
article list has four entries then and three otherwise), and the selection
depends only on the lowercased form of the label. -/
theorem cancerExtra_characterizes_resources (label : String) :
    ((generateImmediateResourcesArticles label).length =
      if codeSelectsCancerExtra label then 4 else 3) ∧
    (∀ l2 : String, jsToLower label = jsToLower l2 →
      codeSelectsCancerExtra label = codeSelectsCancerExtra l2) := by
  constructor
  · unfold generateImmediateResourcesArticles codeSelectsCancerExtra
    dsimp only
    split_ifs <;> simp
  · intro l2 h
    unfold codeSelectsCancerExtra
    rw [h]

/-- C9 counterexample: scenario selection depends on wall-clock time — the
same file fingerprint (name "a", size 0) selects different scenarios at
`Date.now() = 0` and `Date.now() = 1` in the `UploadImage` generator. -/
theorem scenario_selection_time_dependent_cex :
    (UploadImage.generateMockRadiologyResults "a" 0 0 0).findings ≠
      (UploadImage.generateMockRadiologyResults "a" 0 1 0).findings := by decide

/-- C9 (amended): scenario selection is a deterministic function of the input
fingerprint and the wall-clock reading — two calls with the same name length
plus size select the same scenario index at the same clock reading, and the
`Dashboard.generateMockRadiologyResults` variant depends on the fingerprint
alone — but the `UploadImage` variant adds `Date.now()` to the hash, so
selection there is not independent of wall-clock time. -/
theorem scenario_selection_fingerprint_deterministic (n1 n2 : String) (s1 s2 t : Nat)
    (h : n1.length + s1 = n2.length + s2) :
    UploadImage.scenarioIndex n1 s1 t = UploadImage.scenarioIndex n2 s2 t ∧
    Dashboard.scenarioIndex n1 s1 = Dashboard.scenarioIndex n2 s2 := by
  unfold UploadImage.scenarioIndex Dashboard.scenarioIndex
  rw [h]
  exact ⟨rfl, rfl⟩

/-- Witness for C9: the determinism theorem applied to the fingerprints
("ab", 1) and ("a", 2), which agree on name length plus size, at clock 5. -/
theorem scenario_selection_fingerprint_deterministic_witness :
    UploadImage.scenarioIndex "ab" 1 5 = UploadImage.scenarioIndex "a" 2 5 ∧
    Dashboard.scenarioIndex "ab" 1 = Dashboard.scenarioIndex "a" 2 :=
  scenario_selection_fingerprint_deterministic "ab" "a" 1 2 5 (by decide)

/-- C10: for every file name, size, clock reading and random draw, the mock
radiology generators select an index that is in bounds for the six-element
scenario array, and the returned result has a non-empty findings list, a
non-empty recommendations list, a non-empty clinical summary and an urgency
level drawn from the fixed four-element set — the generators are total. -/
theorem mockRadiology_total (name : String) (size now : Nat) (rand : ℚ) :
    UploadImage.scenarioIndex name size now < radiologyScenarios.length ∧
    Dashboard.scenarioIndex name size < radiologyScenarios.length ∧
    WellFormedScenario (UploadImage.generateMockRadiologyResults name size now rand).toRadiologyScenario ∧
    WellFormedScenario (Dashboard.generateMockRadiologyResults name size now rand).toRadiologyScenario := by
  have h6 : (0 : Nat) < radiologyScenarios.length := by decide
  have h1 : UploadImage.scenarioIndex name size now < radiologyScenarios.length :=
    Nat.mod_lt _ h6
  have h2 : Dashboard.scenarioIndex name size < radiologyScenarios.length :=
    Nat.mod_lt _ h6
  refine ⟨h1, h2, ?_, ?_⟩
  · exact radiologyScenarios_wf ⟨UploadImage.scenarioIndex name size now, h1⟩
  · exact radiologyScenarios_wf ⟨Dashboard.scenarioIndex name size, h2⟩

theorem generateImmediateKeywords_conditions_ne_nil (label : String) (recs : List String) :
    (generateImmediateKeywords label recs).conditions ≠ [] := by
  unfold generateImmediateKeywords
  dsimp only
  rw [foldl_recommendationStep_conditions]
  apply jsSetDedup_ne_nil
  split_ifs <;> simp

/-- C1: confidence gate of the Image Characteristic Scorer — below the
configured threshold all four dimensions are not applicable and a non-empty
rationale is attached; at or above the threshold all four dimensions are
numeric scores within the unit interval. -/
theorem score_confidence_gate (cfg : ScorerConfig) (pixels : Image) (label : String)
    (confidence : ℚ) :
    (confidence < cfg.confidenceThreshold →
      (score cfg pixels label confidence).asymmetry = none ∧
      (score cfg pixels label confidence).borderIrregularity = none ∧
      (score cfg pixels label confidence).colorVariation = none ∧
      (score cfg pixels label confidence).evolutionRisk = none ∧
      ∃ r : String, (score cfg pixels label confidence).rationale = some r ∧ r ≠ "") ∧
    (cfg.confidenceThreshold ≤ confidence →
      (∃ a, (score cfg pixels label confidence).asymmetry = some a ∧ 0 ≤ a ∧ a ≤ 1) ∧
      (∃ b, (score cfg pixels label confidence).borderIrregularity = some b ∧ 0 ≤ b ∧ b ≤ 1) ∧
      (∃ c, (score cfg pixels label confidence).colorVariation = some c ∧ 0 ≤ c ∧ c ≤ 1) ∧
      (∃ e, (score cfg pixels label confidence).evolutionRisk = some e ∧ 0 ≤ e ∧ e ≤ 1)) := by
  constructor
  · intro h
    unfold score
    rw [if_pos h]
    exact ⟨rfl, rfl, rfl, rfl, lowConfidenceRationale, rfl, by decide⟩
  · intro h
    unfold score
    rw [if_neg (not_lt.mpr h)]
    exact
      ⟨⟨_, rfl, (asymmetryScore_bounds pixels).1, (asymmetryScore_bounds pixels).2⟩,
       ⟨_, rfl, (borderIrregularityScore_bounds pixels).1, (borderIrregularityScore_bounds pixels).2⟩,
       ⟨_, rfl, (colorVariationScore_bounds pixels).1, (colorVariationScore_bounds pixels).2⟩,
       ⟨_, rfl, (evolutionRiskScore_bounds pixels label).1, (evolutionRiskScore_bounds pixels label).2⟩⟩

/-- C2: the four characteristic dimensions are all numeric or all
not-applicable together, never mixed; the not-applicable state holds exactly
when confidence is below the threshold, and it is determined solely by the
confidence input — two calls at the same confidence agree on it whatever
their pixels and labels. -/
theorem characteristicScores_all_or_nothing (cfg : ScorerConfig) (p1 p2 : Image)
    (l1 l2 : String) (confidence : ℚ) :
    (((score cfg p1 l1 confidence).asymmetry.isSome ∧
        (score cfg p1 l1 confidence).borderIrregularity.isSome ∧
        (score cfg p1 l1 confidence).colorVariation.isSome ∧
        (score cfg p1 l1 confidence).evolutionRisk.isSome) ∨
      ((score cfg p1 l1 confidence).asymmetry = none ∧
        (score cfg p1 l1 confidence).borderIrregularity = none ∧
        (score cfg p1 l1 confidence).colorVariation = none ∧
        (score cfg p1 l1 confidence).evolutionRisk = none)) ∧
    ((score cfg p1 l1 confidence).asymmetry = none ↔ confidence < cfg.confidenceThreshold) ∧
    (score cfg p1 l1 confidence).asymmetry.isNone = (score cfg p2 l2 confidence).asymmetry.isNone := by
  unfold score
  by_cases h : confidence < cfg.confidenceThreshold
  · simp [h]
  · simp [h]

/-- C3: error containment and bundle completeness — for every analysis result
and every resolved state of the three adapter calls (including the state in
which all three failed), the orchestrator returns a bundle whose every field
is populated; adapter errors are resolved locally by fallback substitution
and never surface to the caller. -/
theorem enhance_error_containment (cfg : ScorerConfig) (result : AnalysisResult)
    (outcomes : AdapterOutcomes) (now : Nat) :
    BundlePopulated (enhance cfg result outcomes now) := by
  obtain ⟨hs, he, hc, hr⟩ :=
    insightsCore_fields_ne result.label result.confidence (some result.riskLevel)
  unfold enhance BundlePopulated
  dsimp only
  refine ⟨?_, ?_, hc, hr, ?_, ?_, ?_⟩
  · cases hn : outcomes.narrative with
    | ok n =>
      dsimp only
      split_ifs with hemp
      · exact hs
      · rw [not_or] at hemp
        exact hemp.1
    | error e => exact hs
  · cases hn : outcomes.narrative with
    | ok n =>
      dsimp only
      split_ifs with hemp
      · exact he
      · rw [not_or] at hemp
        exact hemp.2
    | error e => exact he
  · cases hn : outcomes.resources with
    | ok l =>
      dsimp only
      split_ifs with hemp
      · exact generateImmediateResourcesArticles_ne_nil _
      · exact hemp
    | error e => exact generateImmediateResourcesArticles_ne_nil _
  · cases hn : outcomes.keywords with
    | ok k =>
      dsimp only
      split_ifs with hemp
      · exact generateImmediateKeywords_conditions_ne_nil _ _
      · exact hemp
    | error e => exact generateImmediateKeywords_conditions_ne_nil _ _
  · by_cases hconf : result.confidence < cfg.confidenceThreshold
    · right
      unfold score
      rw [if_pos hconf]
      refine ⟨by simp, by simp [lowConfidenceRationale]⟩
    · left
      unfold score
      rw [if_neg hconf]
      simp

/-- C7 counterexample: the resource list is not sorted in descending order of
relevance score — for the label "melanoma" the condition-specific entry
(score 0.88) is appended after the base entry of score 0.85. -/
theorem resources_not_sorted_cex :
    ¬ SortedByRelevanceDesc (generateImmediateResourcesArticles "melanoma") := by
  unfold SortedByRelevanceDesc relevanceScores generateImmediateResourcesArticles
  dsimp only
  rw [if_pos (by decide)]
  norm_num [List.chain'_cons]

/-- C7 (amended): the skin resource list has at most four entries and the
radiology resource list at most five; each is sorted in descending order of
relevance score exactly on the base path, i.e. when no condition-specific
entry is appended — an appended entry (relevance 0.88 or 0.92) breaks the
descending order. -/
theorem resources_bounded_and_base_sorted (label : String) :
    (generateImmediateResourcesArticles label).length ≤ 4 ∧
    (generateRadiologyResourcesArticles label).length ≤ 5 ∧
    (SortedByRelevanceDesc (generateImmediateResourcesArticles label) ↔
      codeSelectsCancerExtra label = false) ∧
    (SortedByRelevanceDesc (generateRadiologyResourcesArticles label) ↔
      (jsIncludes (jsToLower label) "pneumonia" = false ∧
        (jsIncludes (jsToLower label) "cardiomegaly" || jsIncludes (jsToLower label) "heart") = false)) := by
  refine ⟨?_, ?_, ?_, ?_⟩
  · unfold generateImmediateResourcesArticles
    dsimp only
    split_ifs <;> simp
  · unfold generateRadiologyResourcesArticles
    dsimp only
    split_ifs <;> simp
  · unfold SortedByRelevanceDesc relevanceScores generateImmediateResourcesArticles codeSelectsCancerExtra
    dsimp only
    cases hx : (jsIncludes (jsToLower label) "carcinoma" || jsIncludes (jsToLower label) "melanoma") with
    | true =>
      simp only [if_pos]
      constructor
      · intro hsorted
        exfalso
        revert hsorted
        norm_num [List.chain'_cons]
      · intro hfalse
        exact absurd hfalse (by simp)
    | false =>
      simp only [if_neg, Bool.false_eq_true, not_false_iff, ite_false]
      constructor
      · intro _
        trivial
      · intro _
        norm_num [List.chain'_cons]
  · unfold SortedByRelevanceDesc relevanceScores generateRadiologyResourcesArticles
    dsimp only
    cases hp : jsIncludes (jsToLower label) "pneumonia" with
    | true =>
      cases hc : (jsIncludes (jsToLower label) "cardiomegaly" || jsIncludes (jsToLower label) "heart") with
      | true =>
        simp only [if_pos]
        constructor
        · intro hsorted
          exfalso
          revert hsorted
          norm_num [List.chain'_cons]
        · rintro ⟨h1, _⟩
          exact absurd h1 (by simp)
      | false =>
        simp only [Bool.false_eq_true, not_false_iff, ite_false, ite_true]
        constructor
        · intro hsorted
          exfalso
          revert hsorted
          norm_num [List.chain'_cons]
        · rintro ⟨h1, _⟩
          exact absurd h1 (by simp)
    | false =>
      cases hc : (jsIncludes (jsToLower label) "cardiomegaly" || jsIncludes (jsToLower label) "heart") with
      | true =>
        simp only [Bool.false_eq_true, not_false_iff, ite_false, ite_true]
        constructor
        · intro hsorted
          exfalso
          revert hsorted
          norm_num [List.chain'_cons]
        · rintro ⟨_, h2⟩
          exact absurd h2 (by simp)
      | false =>
        simp only [Bool.false_eq_true, not_false_iff, ite_false]
        constructor
        · intro _
          trivial
        · intro _
          norm_num [List.chain'_cons]
